import Mathlib

/-!
Verification of the Loyverse inventory monitor against its specification.

The repository has two variants of the same pipeline:
* variant A (`index.js`): PostgreSQL-backed state store, try/finally resource
  release, row extraction with a cell-count check;
* variant B (`unnamed/part_000`): file-backed state store at
  /tmp/last_inventory.json, no try/finally, extraction filtered on `item` only.

JavaScript string-or-undefined values are modelled as `Option String`
(`none` = undefined), so that `===` becomes decidable equality on
`Option String` and JS truthiness of such a value is `jsTruthy`.
-/

/-- One extracted stock-history record (`InventoryChangeRecord`).
Fields are `Option String`: a cell absent from the row yields JS `undefined`,
modelled as `none`. -/
structure Record where
  timestamp : Option String
  item : Option String
  reason : Option String
  quantity : Option String
  location : Option String
deriving DecidableEq, Repr

/-- JS truthiness of a string-or-undefined value: `undefined` and the empty
string are falsy, every other string is truthy. -/
def jsTruthy : Option String → Bool
  | none => false
  | some s => !(s == "")

/-- Whitespace for JS `String.prototype.trim`. -/
def isJsSpace (c : Char) : Bool :=
  (c == ' ') || (c == '\t') || (c == '\n') || (c == '\r')

/-- JS `s.trim()`: drop leading and trailing whitespace, modelled over the
character list of the string. -/
def jsTrim (s : String) : String :=
  ⟨((s.data.dropWhile isJsSpace).reverse.dropWhile isJsSpace).reverse⟩

/-- `cells[i]?.innerText.trim()`: the text of the i-th cell, trimmed, or
`undefined` when the row has no i-th cell. -/
def cellText (cells : List String) (i : Nat) : Option String :=
  (cells.get? i).map jsTrim

/-- Positional mapping of a row's cells to the five record fields, shared by
both variants (`{ timestamp: cells[0]?..., ..., location: cells[4]?... }`). -/
def mkRecord (cells : List String) : Record :=
  ⟨cellText cells 0, cellText cells 1, cellText cells 2, cellText cells 3,
    cellText cells 4⟩

/-- Variant A row mapper: `if (cells.length < 5) return null;` then the field
mapping; `null` is modelled as `none`. -/
def extractRowA (cells : List String) : Option Record :=
  if cells.length < 5 then none else some (mkRecord cells)

/-- Variant A post-map filter `entry && entry.item && entry.timestamp`:
drops the nulls and every record whose item or timestamp is falsy. -/
def keepEntryA : Option Record → Option Record
  | none => none
  | some r => if jsTruthy r.item && jsTruthy r.timestamp then some r else none

/-- Variant A extraction (`index.js` lines 71-85): map rows positionally,
then filter on non-null, truthy item and truthy timestamp. -/
def latestEntriesA (rows : List (List String)) : List Record :=
  (rows.map extractRowA).filterMap keepEntryA

/-- Variant B extraction (`part_000` lines 25-37): map every row positionally
(no cell-count check), then `.filter(entry => entry.item)` — only a falsy
item drops a row. -/
def latestEntriesB (rows : List (List String)) : List Record :=
  (rows.map mkRecord).filter (fun r => jsTruthy r.item)

/-- `p.timestamp === entry.timestamp && p.item === entry.item`: the identity
key comparison used by the change detector in both variants. -/
def keyMatches (p entry : Record) : Bool :=
  p.timestamp == entry.timestamp && p.item == entry.item

/-- The predicate of the detector's filter:
`!previous.some(p => p.timestamp === entry.timestamp && p.item === entry.item)`. -/
def isNew (previous : List Record) (entry : Record) : Bool :=
  !(previous.any fun p => keyMatches p entry)

/-- The change detector, identical in both variants
(`index.js` lines 94-96, `part_000` lines 43-45):
`latestEntries.filter(entry => !previous.some(...))`. -/
def newEntries (latest previous : List Record) : List Record :=
  latest.filter (isNew previous)

/-- The identity key comparison holds between a record and itself. -/
theorem keyMatches_self (r : Record) : keyMatches r r = true := by
  simp [keyMatches]

/-- Membership in the detector's output, characterised. -/
theorem mem_newEntries (latest previous : List Record) (e : Record) :
    e ∈ newEntries latest previous ↔
      e ∈ latest ∧ ∀ p ∈ previous, keyMatches p e = false := by
  simp [newEntries, isNew, List.mem_filter, List.any_eq_true]

/-- C1. The Change Detector classifies a record as new iff no stored record
has an equal (timestamp, item) pair, and the classification of a record
depends only on its (timestamp, item) pair: two records with equal key but
different reason/quantity/location are classified identically. -/
theorem c1_change_detector_identity (latest previous : List Record)
    (e e' : Record) (ht : e.timestamp = e'.timestamp) (hi : e.item = e'.item) :
    (e ∈ newEntries latest previous ↔
      e ∈ latest ∧ ∀ p ∈ previous,
        ¬(p.timestamp = e.timestamp ∧ p.item = e.item))
    ∧ isNew previous e = isNew previous e' := by
  constructor
  · rw [mem_newEntries]
    constructor
    · rintro ⟨hl, hall⟩
      refine ⟨hl, fun p hp hk => ?_⟩
      have := hall p hp
      simp [keyMatches, hk.1, hk.2] at this
    · rintro ⟨hl, hall⟩
      refine ⟨hl, fun p hp => ?_⟩
      have := hall p hp
      simp only [keyMatches, Bool.and_eq_false_iff]
      by_cases h1 : p.timestamp = e.timestamp
      · right
        simp only [beq_eq_false_iff_ne, ne_eq]
        intro h2
        exact this ⟨h1, h2⟩
      · left
        simp [h1]
  · simp [isNew, keyMatches, ht, hi]

/-- Concrete record used by the C1 witness. -/
def c1rec : Record := ⟨some "10:00", some "Coffee", some "Sale", some "1", some "Bar"⟩

/-- Concrete record with the same identity key as `c1rec` but different
descriptive fields, used by the C1 witness. -/
def c1rec' : Record := ⟨some "10:00", some "Coffee", some "Restock", some "7", some "Main"⟩

/-! ## State stores -/

/-- Variant A `saveState` (`index.js` lines 155-163), modelled as its effect
on the table contents (insertion order): each entry is inserted by its own
statement, appended at the end. No pruning of any kind is performed. -/
def saveState (store entries : List Record) : List Record :=
  store ++ entries

/-- Variant A `saveState` when the k-th insert statement fails: the loop runs
one autocommitted `INSERT` per entry with no surrounding transaction, so the
first k entries are already committed when the failure aborts the loop. -/
def saveStatePartial (store entries : List Record) (k : Nat) : List Record :=
  store ++ entries.take k

/-- Variant A `getPreviousEntries` (`index.js` lines 144-152):
`SELECT ... ORDER BY saved_at DESC LIMIT 100` over the table whose insertion
order is the list order — the (at most) 100 most recently inserted rows. -/
def getPreviousEntries (store : List Record) : List Record :=
  store.reverse.take 100

/-- Variant B state write (`part_000` line 56):
`fs.writeFile(STATE_FILE, JSON.stringify(latestEntries.slice(0, 20)))` —
the file is replaced by the first 20 extracted entries. -/
def writeState (latest : List Record) : List Record :=
  latest.take 20

/-- The ways loading `/tmp/last_inventory.json` can fail: the file is absent
or empty, unreadable, or its content is not valid JSON. -/
inductive LoadFailure
  | absent
  | unreadable
  | malformed
deriving DecidableEq, Repr

/-- Variant B previous-state load (`part_000` lines 40-41):
`let previous = []; try { previous = JSON.parse(await fs.readFile(...)) }
catch (e) {}` — every failure is swallowed and leaves `previous = []`. -/
def loadPreviousB : Except LoadFailure (List Record) → List Record
  | .error _ => []
  | .ok l => l

/-! ## Notification step -/

/-- Error classes a run can end with. -/
inductive RunError
  | typeError
  | authFailed
  | timeout
  | extractionFailed
  | sendFailed
  | storeFailed
deriving DecidableEq, Repr

/-- A JS member of a module object: either a function value or `undefined`. -/
inductive JsMember
  | func
  | undefined
deriving DecidableEq, Repr

/-- Modelled from the nodemailer API the claim names: the module exports a
factory called `createTransport` (and no member called `createTransporter`),
so property access on any other name yields `undefined`. -/
def nodemailerMember (name : String) : JsMember :=
  if name = "createTransport" then .func else .undefined

/-- Calling a JS value: calling `undefined` throws a `TypeError`. -/
def callMember : JsMember → Except RunError Unit
  | .undefined => .error .typeError
  | .func => .ok ()

/-- The first step of `sendEmail` in both variants
(`index.js` line 167, `part_000` line 62):
`nodemailer.createTransporter({...})`. -/
def sendEmailStep : Except RunError Unit :=
  callMember (nodemailerMember "createTransporter")

/-! ## Run models

`pre` injects a failure thrown before the detection step (login, navigation,
render wait, extraction); `email` is the outcome of `await sendEmail(...)`
when that call is reached. The `store` field of a result is the store
contents observable after the run (for variant B: the contents a subsequent
load would parse). -/

/-- Result of one variant A run. -/
structure RunAResult where
  store : List Record
  outcome : Except RunError Unit
  browserClosed : Bool
  poolClosed : Bool
deriving Repr

/-- Variant A `checkInventory` (`index.js` lines 25-118): extract, read the
recent window, detect, and only inside `if (newEntries.length > 0)` send the
email and then `saveState(newEntries)`. The whole body runs inside
`try { ... } finally { await browser.close(); await pool.end(); }`, so the
browser and the pool are closed on every path. -/
def checkInventoryA (pre : Option RunError) (email : Except RunError Unit)
    (rows : List (List String)) (store : List Record) : RunAResult :=
  match pre with
  | some e => ⟨store, .error e, true, true⟩
  | none =>
    let latest := latestEntriesA rows
    let newE := newEntries latest (getPreviousEntries store)
    if newE.isEmpty then
      ⟨store, .ok (), true, true⟩
    else
      match email with
      | .error e => ⟨store, .error e, true, true⟩
      | .ok () => ⟨saveState store newE, .ok (), true, true⟩

/-- Result of one variant B run. -/
structure RunBResult where
  store : List Record
  outcome : Except RunError Unit
  browserClosed : Bool
deriving Repr

/-- Variant B `checkInventory` (`part_000` lines 9-59): extract, load the
file (failures swallowed), detect, email only when the new set is non-empty,
then unconditionally `fs.writeFile(STATE_FILE, ...slice(0, 20))` and only
then `browser.close()`. There is no try/finally: any throw skips both the
write and the close. -/
def checkInventoryB (pre : Option RunError) (email : Except RunError Unit)
    (rows : List (List String)) (file : Except LoadFailure (List Record)) :
    RunBResult :=
  match pre with
  | some e => ⟨loadPreviousB file, .error e, false⟩
  | none =>
    let latest := latestEntriesB rows
    let previous := loadPreviousB file
    let newE := newEntries latest previous
    if newE.isEmpty then
      ⟨writeState latest, .ok (), true⟩
    else
      match email with
      | .error e => ⟨previous, .error e, false⟩
      | .ok () => ⟨writeState latest, .ok (), true⟩

/-- Variant A run with the actual `sendEmail` first step. -/
def runA (rows : List (List String)) (store : List Record) : RunAResult :=
  checkInventoryA none sendEmailStep rows store

/-- Variant B run with the actual `sendEmail` first step. -/
def runB (rows : List (List String)) (file : Except LoadFailure (List Record)) :
    RunBResult :=
  checkInventoryB none sendEmailStep rows file

/-- Witness for C1 at concrete inputs. -/
theorem c1_witness :
    c1rec.timestamp = c1rec'.timestamp ∧ c1rec.item = c1rec'.item ∧
    ((c1rec ∈ newEntries [c1rec] [] ↔
      c1rec ∈ [c1rec] ∧ ∀ p ∈ ([] : List Record),
        ¬(p.timestamp = c1rec.timestamp ∧ p.item = c1rec.item))
    ∧ isNew [] c1rec = isNew [] c1rec') :=
  ⟨rfl, rfl, c1_change_detector_identity [c1rec] [] c1rec c1rec' rfl rfl⟩

/-- The actual first step of `sendEmail` throws: `createTransporter` is not a
member of the nodemailer module, and calling `undefined` is a `TypeError`. -/
theorem sendEmailStep_eq : sendEmailStep = Except.error RunError.typeError := rfl

/-- C2 counterexample (file-backed variant): previous store holds two
records, the page shows only the first of them, so the detected new set is
empty — yet the run rewrites the store, and the record `c2prevB` disappears
from it, so the contents after the run differ from the contents before. -/
theorem c2_counterexample :
    newEntries (latestEntriesB [["ta", "ia", "r", "1", "l"]])
      [⟨some "ta", some "ia", some "r", some "1", some "l"⟩,
        ⟨some "tb", some "ib", some "r", some "2", some "l"⟩] = []
    ∧ (runB [["ta", "ia", "r", "1", "l"]]
        (Except.ok [⟨some "ta", some "ia", some "r", some "1", some "l"⟩,
          ⟨some "tb", some "ib", some "r", some "2", some "l"⟩])).store =
        [⟨some "ta", some "ia", some "r", some "1", some "l"⟩]
    ∧ ([⟨some "ta", some "ia", some "r", some "1", some "l"⟩] : List Record) ≠
        [⟨some "ta", some "ia", some "r", some "1", some "l"⟩,
          ⟨some "tb", some "ib", some "r", some "2", some "l"⟩] := by
  refine ⟨by decide, by decide, by decide⟩

/-- C2 amended. Table-backed variant: the store is appended to exactly when
no earlier failure occurred, the new set is non-empty and the dispatch
succeeded, and is unchanged otherwise. File-backed variant: a dispatch
failure does prevent the store write and leaves the contents unchanged, but
every run in which no failure occurs overwrites the store with the first 20
extracted records, even when the new set is empty. -/
theorem c2_amended (pre : Option RunError) (email : Except RunError Unit)
    (rows : List (List String)) (store prev : List Record) (e : RunError) :
    ((checkInventoryA pre email rows store).store = store ∨
      (pre = none ∧ email = Except.ok () ∧
        newEntries (latestEntriesA rows) (getPreviousEntries store) ≠ [] ∧
        (checkInventoryA pre email rows store).store =
          saveState store
            (newEntries (latestEntriesA rows) (getPreviousEntries store))))
    ∧ (newEntries (latestEntriesB rows) prev ≠ [] →
        (checkInventoryB none (Except.error e) rows (Except.ok prev)).store = prev
        ∧ (checkInventoryB none (Except.error e) rows
            (Except.ok prev)).outcome = Except.error e)
    ∧ (checkInventoryB none (Except.ok ()) rows (Except.ok prev)).store =
        writeState (latestEntriesB rows) := by
  refine ⟨?_, ?_, ?_⟩
  · match pre with
    | some e' => exact Or.inl rfl
    | none =>
      by_cases h : (newEntries (latestEntriesA rows) (getPreviousEntries store)).isEmpty
      · exact Or.inl (by simp [checkInventoryA, h])
      · match email with
        | .error e' => exact Or.inl (by simp [checkInventoryA, h])
        | .ok () =>
          refine Or.inr ⟨rfl, rfl, ?_, by simp [checkInventoryA, h]⟩
          simpa [List.isEmpty_eq_false] using h
  · intro h
    constructor <;> simp [checkInventoryB, loadPreviousB, h]
  · by_cases h : newEntries (latestEntriesB rows) (loadPreviousB (Except.ok prev)) = [] <;>
      simp [checkInventoryB, h]

/-- Witness for C2 at concrete inputs: one genuinely new record, dispatch
fails, and the file-backed store is untouched while the run errors. -/
theorem c2_witness :
    newEntries (latestEntriesB [["t", "i", "r", "1", "l"]]) [] ≠ []
    ∧ (checkInventoryB none (Except.error RunError.sendFailed)
        [["t", "i", "r", "1", "l"]] (Except.ok [])).store = []
    ∧ (checkInventoryB none (Except.error RunError.sendFailed)
        [["t", "i", "r", "1", "l"]] (Except.ok [])).outcome =
          Except.error RunError.sendFailed :=
  ⟨by decide,
    ((c2_amended none (Except.error RunError.sendFailed) [["t", "i", "r", "1", "l"]]
      [] [] RunError.sendFailed).2.1 (by decide)).1,
    ((c2_amended none (Except.error RunError.sendFailed) [["t", "i", "r", "1", "l"]]
      [] [] RunError.sendFailed).2.1 (by decide)).2⟩

/-- C3. `sendEmail` begins with `nodemailer.createTransporter(...)`, a member
absent from the nodemailer module, so the call throws a `TypeError` before
any message is dispatched; in each variant independently, every run of that
variant with a non-empty new set therefore fails and appends nothing to the
store — a successful notification is unreachable. -/
theorem c3_createTransporter_fatal (rows : List (List String))
    (store : List Record) (file : Except LoadFailure (List Record)) :
    sendEmailStep = Except.error RunError.typeError
    ∧ (newEntries (latestEntriesA rows) (getPreviousEntries store) ≠ [] →
        (runA rows store).outcome = Except.error RunError.typeError
        ∧ (runA rows store).store = store)
    ∧ (newEntries (latestEntriesB rows) (loadPreviousB file) ≠ [] →
        (runB rows file).outcome = Except.error RunError.typeError
        ∧ (runB rows file).store = loadPreviousB file) := by
  refine ⟨rfl, fun hA => ?_, fun hB => ?_⟩
  · constructor <;> simp [runA, checkInventoryA, hA, sendEmailStep_eq]
  · constructor <;> simp [runB, checkInventoryB, hB, sendEmailStep_eq]

/-- Witness for C3 at concrete inputs: one extracted record, empty stores,
with both variants' non-empty-new-set hypotheses discharged. -/
theorem c3_witness :
    newEntries (latestEntriesA [["t", "i", "r", "1", "l"]])
      (getPreviousEntries []) ≠ []
    ∧ newEntries (latestEntriesB [["t", "i", "r", "1", "l"]])
        (loadPreviousB (Except.ok [])) ≠ []
    ∧ (runA [["t", "i", "r", "1", "l"]] []).outcome =
        Except.error RunError.typeError
    ∧ (runA [["t", "i", "r", "1", "l"]] []).store = []
    ∧ (runB [["t", "i", "r", "1", "l"]] (Except.ok [])).outcome =
        Except.error RunError.typeError
    ∧ (runB [["t", "i", "r", "1", "l"]] (Except.ok [])).store =
        loadPreviousB (Except.ok []) :=
  ⟨by decide, by decide,
    ((c3_createTransporter_fatal [["t", "i", "r", "1", "l"]] []
      (Except.ok [])).2.1 (by decide)).1,
    ((c3_createTransporter_fatal [["t", "i", "r", "1", "l"]] []
      (Except.ok [])).2.1 (by decide)).2,
    ((c3_createTransporter_fatal [["t", "i", "r", "1", "l"]] []
      (Except.ok [])).2.2 (by decide)).1,
    ((c3_createTransporter_fatal [["t", "i", "r", "1", "l"]] []
      (Except.ok [])).2.2 (by decide)).2⟩

/-- C4 counterexample (file-backed variant): a row whose timestamp cell is
empty, and a 2-cell row, both survive extraction — the first with an empty
timestamp, the second with only 2 of 5 fields populated — because variant B
filters on `entry.item` alone and performs no cell-count check. -/
theorem c4_counterexample :
    (⟨some "", some "i4", some "r", some "1", some "l"⟩ : Record) ∈
      latestEntriesB [["", "i4", "r", "1", "l"], ["t4", "i4b"]]
    ∧ (⟨some "t4", some "i4b", none, none, none⟩ : Record) ∈
      latestEntriesB [["", "i4", "r", "1", "l"], ["t4", "i4b"]]
    ∧ jsTruthy (some "") = false
    ∧ (⟨some "t4", some "i4b", none, none, none⟩ : Record).reason.isSome = false := by
  refine ⟨by decide, by decide, by decide, by decide⟩

/-- C4 amended. In the Postgres variant every surfaced record has a truthy
(non-empty) timestamp and item and all five fields populated, so rows with
fewer than 5 cells or empty identity fields are dropped there; the file
variant guarantees only a truthy item. -/
theorem c4_amended (rows rows' : List (List String)) (r r' : Record)
    (hA : r ∈ latestEntriesA rows) (hB : r' ∈ latestEntriesB rows') :
    jsTruthy r.timestamp = true ∧ jsTruthy r.item = true
    ∧ r.timestamp.isSome = true ∧ r.item.isSome = true ∧ r.reason.isSome = true
    ∧ r.quantity.isSome = true ∧ r.location.isSome = true
    ∧ jsTruthy r'.item = true := by
  have hBitem : jsTruthy r'.item = true := (List.mem_filter.mp hB).2
  rcases List.mem_filterMap.mp hA with ⟨e, he, hk⟩
  match e, hk with
  | none, hk => simp [keepEntryA] at hk
  | some r₀, hk =>
    have hkeep : (jsTruthy r₀.item && jsTruthy r₀.timestamp) = true ∧ r₀ = r := by
      by_cases hc : (jsTruthy r₀.item && jsTruthy r₀.timestamp) = true
      · refine ⟨hc, ?_⟩
        simpa [keepEntryA, hc] using hk
      · simp [keepEntryA, hc] at hk
    rcases hkeep with ⟨hc, rfl⟩
    rcases List.mem_map.mp he with ⟨cells, _, hcells⟩
    have h5 : ¬cells.length < 5 := by
      intro hlt
      simp [extractRowA, hlt] at hcells
    have hrec : mkRecord cells = r₀ := by
      simpa [extractRowA, h5] using hcells
    have hsome : ∀ i, i < 5 → (cellText cells i).isSome = true := by
      intro i hi
      have h1 : cells.get? i ≠ none := by
        rw [Ne, List.get?_eq_none]
        omega
      rw [cellText, Option.isSome_map']
      exact Option.ne_none_iff_isSome.mp h1
    rcases (Bool.and_eq_true _ _).mp hc with ⟨hitem, hts⟩
    refine ⟨hts, hitem, ?_, ?_, ?_, ?_, ?_, hBitem⟩ <;>
      rw [← hrec] <;> exact hsome _ (by omega)

/-- Witness for C4 at concrete inputs. -/
theorem c4_witness :
    (⟨some "t", some "i", some "r", some "1", some "l"⟩ : Record) ∈
      latestEntriesA [["t", "i", "r", "1", "l"]]
    ∧ (⟨some "t", some "i", none, none, none⟩ : Record) ∈ latestEntriesB [["t", "i"]]
    ∧ (jsTruthy (some "t") = true ∧ jsTruthy (some "i") = true
      ∧ (some "t").isSome = true ∧ (some "i").isSome = true
      ∧ (some "r").isSome = true ∧ (some "1").isSome = true
      ∧ (some "l").isSome = true
      ∧ jsTruthy (Record.item ⟨some "t", some "i", none, none, none⟩) = true) :=
  ⟨by decide, by decide,
    c4_amended [["t", "i", "r", "1", "l"]] [["t", "i"]]
      ⟨some "t", some "i", some "r", some "1", some "l"⟩
      ⟨some "t", some "i", none, none, none⟩ (by decide) (by decide)⟩

/-- A concrete file-backed store at its retention capacity: 20 records with
pairwise distinct identity keys. -/
def c5store : List Record :=
  (List.range 20).map fun n =>
    ⟨some (toString n), some "i5", some "s", some "1", some "l"⟩

/-- C5 counterexample. File-backed variant: a store of 20 records receives a
21st identity, yet after the run the store holds 1 record, not the 20 most
recently inserted ones. Table-backed variant: appending a record to a store
of 100 leaves 101 records — `saveState` never prunes. -/
theorem c5_counterexample :
    c5store.length = 20
    ∧ newEntries (latestEntriesB [["t5new", "i5", "r", "1", "l"]]) c5store ≠ []
    ∧ (checkInventoryB none (Except.ok ()) [["t5new", "i5", "r", "1", "l"]]
        (Except.ok c5store)).store.length = 1
    ∧ (saveState
        (List.replicate 100 (⟨some "t5", some "i5", some "s", some "1", some "l"⟩ : Record))
        [⟨some "t5b", some "i5b", some "s", some "1", some "l"⟩]).length = 101 := by
  refine ⟨by decide, by decide, by decide, by simp [saveState]⟩

/-- C5 amended. Neither variant prunes on append: the table-backed
`saveState` grows the store by exactly the number of appended entries, and
the retention windows exist only as the table-backed read limit
(`getPreviousEntries` returns at most 100 records) and the file-backed
overwrite (the written file holds at most the first 20 extracted records). -/
theorem c5_amended (store entries latest : List Record) :
    (saveState store entries).length = store.length + entries.length
    ∧ (getPreviousEntries store).length ≤ 100
    ∧ (writeState latest).length ≤ 20 := by
  refine ⟨by simp [saveState], ?_, ?_⟩ <;>
    simp [getPreviousEntries, writeState, List.length_take]

/-- C6 counterexample. A two-entry append to an empty table-backed store
whose second `INSERT` fails leaves exactly one record committed: the
observable state is neither the prior contents nor the full append — a
partial append is observable, so the append is not atomic. -/
theorem c6_counterexample :
    saveStatePartial [] [⟨some "t6", some "i6", some "s", some "1", some "l"⟩,
        ⟨some "t6b", some "i6b", some "s", some "2", some "l"⟩] 1 =
      [⟨some "t6", some "i6", some "s", some "1", some "l"⟩]
    ∧ ([⟨some "t6", some "i6", some "s", some "1", some "l"⟩] : List Record) ≠ []
    ∧ ([⟨some "t6", some "i6", some "s", some "1", some "l"⟩] : List Record) ≠
        [⟨some "t6", some "i6", some "s", some "1", some "l"⟩,
          ⟨some "t6b", some "i6b", some "s", some "2", some "l"⟩] := by
  refine ⟨by decide, by decide, by decide⟩

/-- C6 amended. A failure partway through the table-backed append preserves
the prior contents as a prefix of the observable state, a complete loop
performs the full append, and a failure after k inserts leaves exactly the
first k entries committed after the prior contents — the prior contents
survive but a partial append is observable. -/
theorem c6_amended (store entries : List Record) (k : Nat) :
    (saveStatePartial store entries k).take store.length = store
    ∧ saveStatePartial store entries entries.length = saveState store entries
    ∧ (saveStatePartial store entries k).length =
        store.length + min k entries.length := by
  refine ⟨?_, ?_, ?_⟩
  · rw [saveStatePartial]
    exact List.take_left store (entries.take k)
  · simp [saveStatePartial, saveState, List.take_length]
  · simp [saveStatePartial, List.length_take]

/-- C7 counterexample, a fully reachable file-backed run using the actual
(always failing) `sendEmail` step. The page holds two records with the same
(timestamp, item) key but different reason/quantity/location, and the store
already knows that key, so the detected new set is empty and `sendEmail` is
never called; the run then completes and its unconditional store write
inserts both same-key records — after this single run the store contains two
records with an identical identity key, both inserted by that run. -/
theorem c7_counterexample :
    newEntries
      (latestEntriesB
        [["t7", "i7", "sale", "1", "main"], ["t7", "i7", "restock", "2", "back"]])
      [⟨some "t7", some "i7", some "old", some "0", some "x"⟩] = []
    ∧ (runB [["t7", "i7", "sale", "1", "main"], ["t7", "i7", "restock", "2", "back"]]
        (Except.ok [⟨some "t7", some "i7", some "old", some "0", some "x"⟩])).outcome =
      Except.ok ()
    ∧ (runB [["t7", "i7", "sale", "1", "main"], ["t7", "i7", "restock", "2", "back"]]
        (Except.ok [⟨some "t7", some "i7", some "old", some "0", some "x"⟩])).store =
      [⟨some "t7", some "i7", some "sale", some "1", some "main"⟩,
        ⟨some "t7", some "i7", some "restock", some "2", some "back"⟩]
    ∧ keyMatches ⟨some "t7", some "i7", some "sale", some "1", some "main"⟩
        ⟨some "t7", some "i7", some "restock", some "2", some "back"⟩ = true
    ∧ (⟨some "t7", some "i7", some "sale", some "1", some "main"⟩ : Record) ≠
        ⟨some "t7", some "i7", some "restock", some "2", some "back"⟩ := by
  refine ⟨by decide, rfl, by decide, by decide, by decide⟩

/-- C7 amended. What a single run guarantees is dedup against the consulted
store: no record the detector emits shares its identity key with any
consulted stored record. The store can nevertheless come to hold two
same-key records inserted by one run: a file-backed run whose new set is
empty still rewrites the store with the first 20 extracted records, and any
duplicate identities among them are all written by that single run. -/
theorem c7_amended (latest previous : List Record) (e : Record)
    (he : e ∈ newEntries latest previous) (p : Record) (hp : p ∈ previous) :
    keyMatches p e = false :=
  ((mem_newEntries latest previous e).mp he).2 p hp

/-- Witness for C7 at concrete inputs. -/
theorem c7_witness :
    (⟨some "t7w", some "i7w", some "s", some "1", some "l"⟩ : Record) ∈
      newEntries [⟨some "t7w", some "i7w", some "s", some "1", some "l"⟩]
        [⟨some "t0", some "i0", some "s", some "1", some "l"⟩]
    ∧ (⟨some "t0", some "i0", some "s", some "1", some "l"⟩ : Record) ∈
        [⟨some "t0", some "i0", some "s", some "1", some "l"⟩]
    ∧ keyMatches ⟨some "t0", some "i0", some "s", some "1", some "l"⟩
        ⟨some "t7w", some "i7w", some "s", some "1", some "l"⟩ = false :=
  ⟨by decide, by decide,
    c7_amended [⟨some "t7w", some "i7w", some "s", some "1", some "l"⟩]
      [⟨some "t0", some "i0", some "s", some "1", some "l"⟩]
      ⟨some "t7w", some "i7w", some "s", some "1", some "l"⟩ (by decide)
      ⟨some "t0", some "i0", some "s", some "1", some "l"⟩ (by decide)⟩

/-- C8 counterexample. Against an unchanged empty store, running the
detector on a one-record input yields that record — and re-running the same
pure function on the same arguments yields the same non-empty set, not the
empty one. -/
theorem c8_counterexample :
    newEntries [⟨some "t8", some "i8", some "s", some "1", some "l"⟩] [] =
      [⟨some "t8", some "i8", some "s", some "1", some "l"⟩]
    ∧ ([⟨some "t8", some "i8", some "s", some "1", some "l"⟩] : List Record) ≠ [] := by
  refine ⟨by decide, by decide⟩

/-- C8 amended. Idempotence holds across a completed run, not against an
unchanged store: once the detected new set has been appended to the store,
re-running the detector with the identical extracted input yields an empty
new set. -/
theorem c8_amended (latest previous : List Record) :
    newEntries latest (previous ++ newEntries latest previous) = [] := by
  rw [newEntries, List.filter_eq_nil_iff]
  intro a ha hnew
  rw [isNew, Bool.not_eq_true', List.any_eq_false] at hnew
  have hprev : isNew previous a = true := by
    rw [isNew, Bool.not_eq_true', List.any_eq_false]
    intro p hp
    exact hnew p (List.mem_append_left _ hp)
  have hmem : a ∈ newEntries latest previous :=
    List.mem_filter.mpr ⟨ha, hprev⟩
  exact hnew a (List.mem_append_right _ hmem) (keyMatches_self a)

/-- C9 counterexample. A malformed state file is swallowed by the empty
`catch` of the file-backed variant: the previous-state set silently resolves
to empty and the run completes successfully, whereas the claim requires any
failure other than an absent or empty store to be an error. -/
theorem c9_counterexample :
    loadPreviousB (Except.error LoadFailure.malformed) = ([] : List Record)
    ∧ (runB [] (Except.error LoadFailure.malformed)).outcome = Except.ok () :=
  ⟨rfl, rfl⟩

/-- C9 amended. In the file-backed variant every previous-state load failure
— absent, unreadable, or malformed — is silently treated as an empty
previous-state set: the run behaves exactly as it does over an empty store.
In the table-backed variant a failure before detection (including a failed
`SELECT`) propagates and leaves the store unchanged. -/
theorem c9_amended (f : LoadFailure) (email : Except RunError Unit)
    (rows : List (List String)) (e : RunError) (store : List Record) :
    checkInventoryB none email rows (Except.error f) =
      checkInventoryB none email rows (Except.ok [])
    ∧ (checkInventoryA (some e) email rows store).outcome = Except.error e
    ∧ (checkInventoryA (some e) email rows store).store = store :=
  ⟨rfl, rfl, rfl⟩

/-- C10 counterexample. A file-backed run with one new record reaches the
(always failing) notification step, the throw propagates, and the browsing
session is never closed: an exit path on which an acquired resource is not
released. -/
theorem c10_counterexample :
    (runB [["t10", "i10", "r", "1", "l"]] (Except.ok [])).outcome =
      Except.error RunError.typeError
    ∧ (runB [["t10", "i10", "r", "1", "l"]] (Except.ok [])).browserClosed = false :=
  ⟨rfl, rfl⟩

/-- C10 amended. The table-backed variant closes the browser and the pool on
every exit path of its try/finally; the file-backed variant closes the
browser exactly on the runs that finish without an error — every failing
exit path leaves the session unreleased. -/
theorem c10_amended (pre : Option RunError) (email : Except RunError Unit)
    (rows : List (List String)) (store : List Record)
    (file : Except LoadFailure (List Record)) :
    (checkInventoryA pre email rows store).browserClosed = true
    ∧ (checkInventoryA pre email rows store).poolClosed = true
    ∧ (checkInventoryB pre email rows file).browserClosed =
        (checkInventoryB pre email rows file).outcome.isOk := by
  refine ⟨?_, ?_, ?_⟩ <;>
  · cases pre with
    | some e => rfl
    | none =>
      by_cases h : newEntries (latestEntriesA rows) (getPreviousEntries store) = [] <;>
      by_cases h' : newEntries (latestEntriesB rows) (loadPreviousB file) = [] <;>
      cases email with
      | error e =>
        simp [checkInventoryA, checkInventoryB, h, h', Except.isOk, Except.toBool]
      | ok u =>
        simp [checkInventoryA, checkInventoryB, h, h', Except.isOk, Except.toBool]
